import Mathlib

/-!
Verification of the StageBridge mapping codec and CSV ingestion pipeline.

The definitions below are a shallow embedding of the JavaScript sources:
* `parseSongCsvJs` and its row loop — `src/unnamed/part_001`, lines 10–114;
* the interactive form patch encoder — `src/frontend/public/app.js`,
  `generateMappingFromForm`, patch branch (identical copies live in
  `src/unnamed/part_001` and `src/unnamed/part_009`);
* the edit-flow decoder — `src/unnamed/part_009`, `populateFormForEdit`;
* the mode/view and looper control tables of the generator/app copy
  (`src/frontend/public/app.js`) and of the templates/client copy
  (`src/stagebridge/templates/client.js`);
* the multi-file batch handler — `src/unnamed/part_001`, `processCsvBtn`
  click handler, lines 324–385.

JavaScript strings are modelled as Lean `String` (a list of characters);
the string operations the code uses (`trim`, `split` on a one-character
separator, `startsWith`, first-occurrence `replace` with the empty string,
`toUpperCase`/`toLowerCase` on ASCII data, the regexes `/\d+/` and
`/[a-zA-Z]/`, `parseInt` on a digit run) are defined below with JavaScript
semantics on ASCII data. JavaScript numbers are integral throughout the
codec, so they are modelled as `Int`; JavaScript `%` truncates toward zero
(`Int.tmod`) and `Math.floor` of an exact integer quotient is `Int.fdiv`.
-/

/-- The ASCII whitespace characters `trim` removes (space, tab, newline,
carriage return, vertical tab, form feed). -/
def isJsSpace (c : Char) : Bool :=
  c = ' ' || c = '\t' || c = '\n' || c = '\r' || c = '\x0b' || c = '\x0c'

/-- Remove leading and trailing whitespace from a character list. -/
def trimList (l : List Char) : List Char :=
  ((l.dropWhile isJsSpace).reverse.dropWhile isJsSpace).reverse

/-- JavaScript `String.prototype.trim` (on ASCII data). -/
def jsTrim (s : String) : String := String.mk (trimList s.data)

/-- Worker for `jsSplit`: `acc` holds the current field reversed. -/
def splitCharAux (sep : Char) : List Char → List Char → List String
  | [], acc => [String.mk acc.reverse]
  | c :: cs, acc =>
    if c = sep then String.mk acc.reverse :: splitCharAux sep cs []
    else splitCharAux sep cs (c :: acc)

/-- JavaScript `String.prototype.split` with a one-character separator
(the source only splits on `"\n"` and `","`); `"".split(sep)` is `[""]`. -/
def jsSplit (s : String) (sep : Char) : List String := splitCharAux sep s.data []

/-- Character-list prefix test (worker for `jsStartsWith`). -/
def listIsPre : List Char → List Char → Bool
  | [], _ => true
  | _ :: _, [] => false
  | p :: ps, c :: cs => p = c && listIsPre ps cs

/-- JavaScript `value.startsWith(pat)`. -/
def jsStartsWith (s pat : String) : Bool := listIsPre pat.data s.data

/-- JavaScript `s.replace(pat, "")` with a plain-string pattern: remove the
first occurrence of `pat`, if any. -/
def removeFirst (pat : List Char) : List Char → List Char
  | [] => []
  | c :: cs =>
    if listIsPre pat (c :: cs) then (c :: cs).drop pat.length
    else c :: removeFirst pat cs

/-- JavaScript `toUpperCase` on ASCII data. -/
def jsToUpper (s : String) : String := String.mk (s.data.map Char.toUpper)

/-- The regex `/\d+/`: the first maximal run of decimal digits, if any. -/
def firstDigitRun : List Char → Option (List Char)
  | [] => none
  | c :: cs =>
    if c.isDigit then some (c :: cs.takeWhile Char.isDigit)
    else firstDigitRun cs

/-- The regex `/[a-zA-Z]/`: the first ASCII letter, if any. -/
def firstAlpha : List Char → Option Char
  | [] => none
  | c :: cs => if c.isAlpha then some c else firstAlpha cs

/-- JavaScript `parseInt` on a nonempty run of decimal digits. -/
def digitsToNat (ds : List Char) : Nat :=
  ds.foldl (fun n c => n * 10 + (c.toNat - 48)) 0

/-- JavaScript `Array.prototype.indexOf` on an array of strings. -/
def listIdxOf (a : String) : List String → Option Nat
  | [] => none
  | b :: bs => if b = a then some 0 else (listIdxOf a bs).map (· + 1)

/-- The regex replacement `/[^a-z0-9_]/g → "_"`, one character. -/
def sanitizeChar (c : Char) : Char :=
  if ('a' ≤ c && c ≤ 'z') || ('0' ≤ c && c ≤ '9') || c = '_' then c else '_'

/-- The regex replacement `/_+/g → "_"`: collapse each maximal run of
underscores to a single one. `prevU` records whether the previous kept
character was an underscore of a run still being collapsed. -/
def collapseAux : Bool → List Char → List Char
  | _, [] => []
  | prevU, c :: cs =>
    if c = '_' then
      if prevU then collapseAux true cs else '_' :: collapseAux true cs
    else c :: collapseAux false cs

/-- `songTitle.toLowerCase().replace(/[^a-z0-9_]/g, "_").replace(/_+/g, "_")`
(part_001, line 107). -/
def sanitizeTitle (songTitle : String) : String :=
  String.mk (collapseAux false ((songTitle.data.map Char.toLower).map sanitizeChar))

/-- A MIDI event as the codec emits it: a tagged object with integral
fields (`type`, `channel`, `control`/`program`, `value`). -/
inductive MidiEvent where
  | control_change (channel control value : Int)
  | program_change (channel program : Int)
deriving DecidableEq

/-- An intermediate `{description, midi_sequence}` pair, before an id and
an OSC address are attached (`tempMappings` in part_001). -/
structure TempMapping where
  description : String
  midi_sequence : List MidiEvent
deriving DecidableEq

/-- A produced mapping record. -/
structure Mapping where
  id : String
  osc_address : String
  description : String
  midi_sequence : List MidiEvent
deriving DecidableEq

/-- Per-batch parser settings. The source field names are `column_name`,
`footswitch_prefix`, `scene_prefix` and `osc_prefix`. -/
structure ParserSettings where
  column_name : String
  footswitch_pre : String
  scene_pre : String
  osc_pre : String
deriving DecidableEq

/-- The patch encoding formulas of the CSV pipeline (part_001, lines
82–91): `presetIndex = (patchNum-1)*8 + patchLetterVal`,
`bank = presetIndex > 127 ? 1 : 0`, `program = presetIndex % 128`, emitted
as CC#0, CC#32 (the raw 0-indexed setlist number), then program change,
all on channel 1. -/
def csvPatchSeq (setlistNumber patchNum patchLetterVal : Int) : List MidiEvent :=
  let presetIndex := (patchNum - 1) * 8 + patchLetterVal
  let bank : Int := if presetIndex > 127 then 1 else 0
  let program := presetIndex.tmod 128
  [MidiEvent.control_change 1 0 bank,
   MidiEvent.control_change 1 32 setlistNumber,
   MidiEvent.program_change 1 program]

/-- The patch branch of the interactive form encoder
(`generateMappingFromForm` in app.js, lines 293–313; the same formulas
appear in part_001 and part_009): `setlist` is already 0-indexed (the form
value minus 1). -/
def formPatchSeq (setlist patchNum patchLetterVal : Int) : List MidiEvent :=
  let presetIndex := (patchNum - 1) * 8 + patchLetterVal
  let bank : Int := if presetIndex > 127 then 1 else 0
  let program := presetIndex.tmod 128
  [MidiEvent.control_change 1 0 bank,
   MidiEvent.control_change 1 32 setlist,
   MidiEvent.program_change 1 program]

/-- Classification of one target-cell value (part_001, lines 48–97): a
footswitch-prefixed value, else a scene-prefixed value, else a value with
a digit run and a letter is a patch. A structurally unmatched value, or
one whose parameters fail the guards, produces nothing. -/
def classifyValue (settings : ParserSettings) (setlistNumber : Int)
    (value : String) : Option TempMapping :=
  if jsStartsWith value settings.footswitch_pre then
    let fs_str := jsToUpper (jsTrim (String.mk (removeFirst settings.footswitch_pre.data value.data)))
    match fs_str.data with
    | [c] =>
      if 'A' ≤ c ∧ c ≤ 'H' then
        some ⟨"QC: Toggle Footswitch " ++ fs_str,
          [MidiEvent.control_change 1 (35 + ((c.toNat : Int) - 65)) 127]⟩
      else none
    | _ => none
  else if jsStartsWith value settings.scene_pre then
    let sc_str := jsToUpper (jsTrim (String.mk (removeFirst settings.scene_pre.data value.data)))
    match sc_str.data with
    | [c] =>
      if 'A' ≤ c ∧ c ≤ 'H' then
        some ⟨"QC: Select Scene " ++ sc_str,
          [MidiEvent.control_change 1 43 ((c.toNat : Int) - 65)]⟩
      else none
    | _ => none
  else
    match firstDigitRun value.data, firstAlpha value.data with
    | some ds, some a =>
      let patchNum : Int := (digitsToNat ds : Nat)
      let patchChar := a.toUpper
      if 1 ≤ patchNum ∧ 'A' ≤ patchChar ∧ patchChar ≤ 'H' then
        some ⟨"QC: Setlist " ++ toString (setlistNumber + 1) ++ ", Patch "
            ++ toString patchNum ++ String.singleton patchChar,
          csvPatchSeq setlistNumber patchNum ((patchChar.toNat : Int) - 65)⟩
      else none
    | _, _ => none

/-- Extraction of the target cell of one raw line (part_001, lines 33–39):
skip a blank line, skip a row with too few cells, else the trimmed cell at
`columnIndex`. -/
def rowValue (columnIndex : Nat) (rawLine : String) : Option String :=
  let line := jsTrim rawLine
  if line = "" then none
  else
    let values := (jsSplit line ',').map jsTrim
    if values.length ≤ columnIndex then none
    else some (jsTrim (values.getD columnIndex ""))

/-- The row loop of part_001 (lines 29–105), with the mutable `lastValue`
made an explicit accumulator: a blank or duplicate-of-previous value is
skipped, every other value updates `lastValue` and is classified; a
classified value appends one `{description, midi_sequence}` pair. -/
def processLines (settings : ParserSettings) (setlistNumber : Int) (columnIndex : Nat) :
    Option String → List String → List TempMapping
  | _, [] => []
  | lastValue, l :: ls =>
    match rowValue columnIndex l with
    | none => processLines settings setlistNumber columnIndex lastValue ls
    | some value =>
      if value = "" ∨ lastValue = some value then
        processLines settings setlistNumber columnIndex lastValue ls
      else
        match classifyValue settings setlistNumber value with
        | some tm => tm :: processLines settings setlistNumber columnIndex (some value) ls
        | none => processLines settings setlistNumber columnIndex (some value) ls

/-- The final loop of part_001 (lines 108–112): attach a fresh id and the
address `{osc_prefix}/{sanitizedTitle}/{i+1}` to the i-th produced pair.
`freshId` models the stream of `crypto.randomUUID()` draws, indexed by
creation order. -/
def assignAddresses (oscPre sanitizedTitle : String) (freshId : Nat → String) :
    Nat → List TempMapping → List Mapping
  | _, [] => []
  | i, tm :: tms =>
    { id := freshId i,
      osc_address := oscPre ++ "/" ++ sanitizedTitle ++ "/" ++ toString (i + 1),
      description := tm.description,
      midi_sequence := tm.midi_sequence } :: assignAddresses oscPre sanitizedTitle freshId (i + 1) tms

/-- `parseSongCsvJs` (part_001, lines 10–114). The returned list of
strings models the invocations of the optional `onWarning` callback: the
`try` body (lines 48–97) consists of string operations, `parseInt`,
`charCodeAt` and array pushes, none of which can throw, so the `catch`
(lines 98–104) is unreachable and no warning is ever emitted. The
`lines.length === 0` early return (line 19) is dead because `split` always
returns at least one element. -/
def parseSongCsvJs (csvString songTitle : String) (setlistNumber : Int)
    (settings : ParserSettings) (freshId : Nat → String) :
    Except String (List Mapping × List String) :=
  let lines := jsSplit (jsTrim csvString) '\n'
  let headers := (jsSplit (lines.headD "") ',').map jsTrim
  match listIdxOf settings.column_name headers with
  | none =>
    .error ("Column '" ++ settings.column_name ++ "' not found in CSV for '"
      ++ songTitle ++ "'. Available columns: " ++ String.intercalate ", " headers)
  | some columnIndex =>
    let temp := processLines settings setlistNumber columnIndex none (lines.drop 1)
    .ok (assignAddresses settings.osc_pre (sanitizeTitle songTitle) freshId 0 temp, [])

/-- The multi-file loop of the `processCsvBtn` click handler (part_001,
lines 358–377): files are processed in order with a setlist number that
increments per file; the first thrown error makes the handler display the
message and `return` before `generatedMappings.push(...newMappingsFromCsv)`
runs, so nothing at all is applied. `k` is the file index (used to give
each file its own id stream). -/
def processCsvBatchAux (settings : ParserSettings) (freshId : Nat → Nat → String) :
    Nat → Int → List (String × String) → Except String (List Mapping)
  | _, _, [] => .ok []
  | k, sl, (songTitle, csvString) :: rest =>
    match parseSongCsvJs csvString songTitle sl settings (freshId k) with
    | .error e => .error e
    | .ok (ms, _) =>
      match processCsvBatchAux settings freshId (k + 1) (sl + 1) rest with
      | .error e => .error e
      | .ok more => .ok (ms ++ more)

/-- The whole batch: the handler starts from
`parseInt(startSetlistNumberInput.value) - 1` (part_001, line 348); each
pair is `(songTitle, csvString)` with the title already stripped of its
`.csv` suffix (line 359). -/
def processCsvBatch (settings : ParserSettings) (freshId : Nat → Nat → String)
    (startSetlistNumber : Int) (files : List (String × String)) :
    Except String (List Mapping) :=
  processCsvBatchAux settings freshId 0 (startSetlistNumber - 1) files

/-- `m.type === 'control_change' && m.control === control`. -/
def isCC (control : Int) : MidiEvent → Bool
  | .control_change _ c _ => c = control
  | _ => false

/-- `m.type === 'program_change'`. -/
def isPC : MidiEvent → Bool
  | .program_change _ _ => true
  | _ => false

/-- `m.type === 'control_change' && lo <= m.control && m.control <= hi`. -/
def isCCBetween (lo hi : Int) : MidiEvent → Bool
  | .control_change _ c _ => lo ≤ c && c ≤ hi
  | _ => false

/-- `m.type === 'control_change' && cs.includes(m.control)`. -/
def isCCIn (cs : List Int) : MidiEvent → Bool
  | .control_change _ c _ => cs.contains c
  | _ => false

/-- `seq.find(m => m.control === control)?.value ?? 0` — the `?? 0` models
the `msg ? msg.value : 0` defaults of `populateFormForEdit` (part_009,
lines 574–581). A `program_change` object has no `control` field, so it
never matches. -/
def ccValue (control : Int) (seq : List MidiEvent) : Int :=
  match seq.find? (isCC control) with
  | some (.control_change _ _ v) => v
  | _ => 0

/-- `seq.find(m => m.type === 'program_change')?.program ?? 0`. -/
def pcProgram (seq : List MidiEvent) : Int :=
  match seq.find? isPC with
  | some (.program_change _ p) => p
  | _ => 0

/-- The three patch form fields `populateFormForEdit` fills (part_009,
lines 587–589): the 1-indexed setlist, the patch number, the letter
index. -/
structure PatchFormFields where
  setlistField : Int
  patchNumberField : Int
  patchLetterField : Int
deriving DecidableEq

/-- The patch branch of `populateFormForEdit` (part_009, lines 573–590):
`presetIndex = bank * 128 + program`,
`patchNum = Math.floor(presetIndex / 8) + 1`,
`patchLetterVal = presetIndex % 8`, and the setlist field gets
`setlist + 1`. -/
def decodePatchFields (seq : List MidiEvent) : PatchFormFields :=
  let setlist := ccValue 32 seq
  let bank := ccValue 0 seq
  let program := pcProgram seq
  let presetIndex := bank * 128 + program
  ⟨setlist + 1, presetIndex.fdiv 8 + 1, presetIndex.tmod 8⟩

/-- The category classifier of `populateFormForEdit` (part_009, lines
552–566); `""` is the unclassified result. -/
def classifyMidi (seq : List MidiEvent) : String :=
  if seq.any (isCC 0) && seq.any (isCC 32) && seq.any isPC then "patch"
  else if seq.any (isCC 43) then "scene"
  else if seq.any (isCCBetween 35 42) then "footswitch"
  else if seq.any (isCCIn [45, 46, 47]) then "mode_view"
  else if seq.any (isCCIn [48, 50, 51, 53, 54, 55, 56]) then "looper"
  else ""

/-- The mode/view table of the generator/app copy (app.js, lines 334–349;
identical switches in part_001 and part_009), at channel 1:
control 47 for the three modes, 45 for the tuner, 46 for gig view. An
unmatched action produces nothing. -/
def appModeViewSeq : String → Option (List MidiEvent)
  | "mode_preset" => some [MidiEvent.control_change 1 47 0]
  | "mode_scene" => some [MidiEvent.control_change 1 47 1]
  | "mode_stomp" => some [MidiEvent.control_change 1 47 2]
  | "tuner_on" => some [MidiEvent.control_change 1 45 127]
  | "tuner_off" => some [MidiEvent.control_change 1 45 0]
  | "gig_view_on" => some [MidiEvent.control_change 1 46 127]
  | "gig_view_off" => some [MidiEvent.control_change 1 46 0]
  | _ => none

/-- The looper table of the generator/app copy (app.js, lines 352–370), at
channel 1: controls 53, 54, 56, 51, 55, 50, and 48 for the menu (value 0
opens, 127 closes; every other action uses the default value 127). -/
def appLooperSeq : String → Option (List MidiEvent)
  | "rec_stop" => some [MidiEvent.control_change 1 53 127]
  | "play_stop" => some [MidiEvent.control_change 1 54 127]
  | "undo_redo" => some [MidiEvent.control_change 1 56 127]
  | "half_speed" => some [MidiEvent.control_change 1 51 127]
  | "reverse" => some [MidiEvent.control_change 1 55 127]
  | "one_shot" => some [MidiEvent.control_change 1 50 127]
  | "looper_menu_open" => some [MidiEvent.control_change 1 48 0]
  | "looper_menu_close" => some [MidiEvent.control_change 1 48 127]
  | _ => none

/-- `generateModeViewSequence` of the templates/client copy (client.js,
lines 520–531): control 71 for the modes, 68 for the tuner, 72 for gig
view. -/
def generateModeViewSequence (action : String) (channel : Int) : Option TempMapping :=
  match action with
  | "mode_preset" => some ⟨"QC: Switch to Preset Mode", [MidiEvent.control_change channel 71 0]⟩
  | "mode_scene" => some ⟨"QC: Switch to Scene Mode", [MidiEvent.control_change channel 71 1]⟩
  | "mode_stomp" => some ⟨"QC: Switch to Stomp Mode", [MidiEvent.control_change channel 71 2]⟩
  | "tuner_on" => some ⟨"QC: Turn Tuner On", [MidiEvent.control_change channel 68 127]⟩
  | "tuner_off" => some ⟨"QC: Turn Tuner Off", [MidiEvent.control_change channel 68 0]⟩
  | "gig_view_on" => some ⟨"QC: Turn Gig View On", [MidiEvent.control_change channel 72 127]⟩
  | "gig_view_off" => some ⟨"QC: Turn Gig View Off", [MidiEvent.control_change channel 72 0]⟩
  | _ => none

/-- `generateLooperSequence` of the templates/client copy (client.js,
lines 533–546): controls 61–67 in action order, the menu on 67 (value 127
opens, 0 closes). -/
def generateLooperSequence (action : String) (channel : Int) : Option TempMapping :=
  match action with
  | "rec_stop" => some ⟨"QC: Looper Record/Overdub/Stop", [MidiEvent.control_change channel 61 127]⟩
  | "play_stop" => some ⟨"QC: Looper Play/Stop", [MidiEvent.control_change channel 62 127]⟩
  | "undo_redo" => some ⟨"QC: Looper Undo/Redo", [MidiEvent.control_change channel 63 127]⟩
  | "half_speed" => some ⟨"QC: Looper Toggle Half Speed", [MidiEvent.control_change channel 64 127]⟩
  | "reverse" => some ⟨"QC: Looper Toggle Reverse", [MidiEvent.control_change channel 65 127]⟩
  | "one_shot" => some ⟨"QC: Looper Toggle One Shot", [MidiEvent.control_change channel 66 127]⟩
  | "looper_menu_open" => some ⟨"QC: Open Looper Menu", [MidiEvent.control_change channel 67 127]⟩
  | "looper_menu_close" => some ⟨"QC: Close Looper Menu", [MidiEvent.control_change channel 67 0]⟩
  | _ => none

/-- The settings used by the concrete examples: target column `Part`,
footswitch values start with `FS`, scene values with `SC`, addresses under
`/song`. -/
def stdSettings : ParserSettings := ⟨"Part", "FS", "SC", "/song"⟩

/-- A mapping with the generated id erased: the fields two invocations of
the pipeline can be compared on. -/
def stripId (m : Mapping) : String × String × List MidiEvent :=
  (m.osc_address, m.description, m.midi_sequence)

/-- A whole pipeline result with the generated ids erased. -/
def stripIds (r : Except String (List Mapping × List String)) :
    Except String (List (String × String × List MidiEvent) × List String) :=
  r.map (fun p => (p.1.map stripId, p.2))

/-- `listIdxOf` finds nothing exactly when the element is absent. -/
theorem listIdxOf_eq_none (a : String) (l : List String) (h : a ∉ l) :
    listIdxOf a l = none := by
  induction l with
  | nil => rfl
  | cons b bs ih =>
    simp only [List.mem_cons, not_or] at h
    have hb : ¬ b = a := fun hba => h.1 hba.symm
    simp only [listIdxOf, if_neg hb, ih h.2, Option.map_none']

/-- C1: for every setlist in 1..13, patchNumber in 1..32 and letter index
in 0..7, both the CSV pipeline's patch encoder and the interactive form
encoder emit exactly the three events CC#0 = bank, CC#32 = setlist-1,
program change = program on channel 1, with
presetIndex = (patchNumber-1)*8 + letterIndex in 0..255,
bank = 1 iff presetIndex > 127, and program = presetIndex mod 128, bank
and program both in 0..127. -/
theorem patch_encoding_emits_bank_setlist_program
    (setlist patchNum letterVal : Int)
    (hs1 : 1 ≤ setlist) (hs2 : setlist ≤ 13)
    (hp1 : 1 ≤ patchNum) (hp2 : patchNum ≤ 32)
    (hl1 : 0 ≤ letterVal) (hl2 : letterVal ≤ 7) :
    csvPatchSeq (setlist - 1) patchNum letterVal =
      [MidiEvent.control_change 1 0 (if (patchNum - 1) * 8 + letterVal > 127 then 1 else 0),
       MidiEvent.control_change 1 32 (setlist - 1),
       MidiEvent.program_change 1 (((patchNum - 1) * 8 + letterVal).tmod 128)]
    ∧ formPatchSeq (setlist - 1) patchNum letterVal = csvPatchSeq (setlist - 1) patchNum letterVal
    ∧ 0 ≤ (patchNum - 1) * 8 + letterVal
    ∧ (patchNum - 1) * 8 + letterVal ≤ 255
    ∧ (0 : Int) ≤ (if (patchNum - 1) * 8 + letterVal > 127 then (1 : Int) else 0)
    ∧ (if (patchNum - 1) * 8 + letterVal > 127 then (1 : Int) else 0) ≤ 127
    ∧ 0 ≤ ((patchNum - 1) * 8 + letterVal).tmod 128
    ∧ ((patchNum - 1) * 8 + letterVal).tmod 128 ≤ 127 := by
  have hpre : 0 ≤ (patchNum - 1) * 8 + letterVal := by omega
  have hmod : ((patchNum - 1) * 8 + letterVal).tmod 128
      = ((patchNum - 1) * 8 + letterVal) % 128 := Int.tmod_eq_emod hpre (by norm_num)
  refine ⟨rfl, rfl, hpre, by omega, ?_, ?_, ?_, ?_⟩
  · split <;> norm_num
  · split <;> norm_num
  · rw [hmod]; omega
  · rw [hmod]; omega

/-- Witness for C1 at setlist 2, patch 17A (presetIndex 128 crosses into
bank 1). -/
theorem patch_encoding_emits_bank_setlist_program_w :
    csvPatchSeq 1 17 0 =
      [MidiEvent.control_change 1 0 1, MidiEvent.control_change 1 32 1,
       MidiEvent.program_change 1 0] :=
  (patch_encoding_emits_bank_setlist_program 2 17 0 (by norm_num) (by norm_num)
    (by norm_num) (by norm_num) (by norm_num) (by norm_num)).1

/-- C2: decoding an encoded patch sequence through the edit flow (bank
from CC#0, setlist from CC#32, program from the program change,
presetIndex = bank*128 + program, patchNumber = floor(presetIndex/8)+1,
letterIndex = presetIndex mod 8) recovers the original patch number and
letter index, the setlist field gets the CC#32 value plus 1, and the
sequence classifies as a patch. -/
theorem patch_encode_decode_roundtrip
    (setlistNumber patchNum letterVal : Int)
    (hp1 : 1 ≤ patchNum) (hp2 : patchNum ≤ 32)
    (hl1 : 0 ≤ letterVal) (hl2 : letterVal ≤ 7) :
    decodePatchFields (formPatchSeq setlistNumber patchNum letterVal)
      = ⟨setlistNumber + 1, patchNum, letterVal⟩
    ∧ classifyMidi (formPatchSeq setlistNumber patchNum letterVal) = "patch" := by
  refine ⟨?_, rfl⟩
  have hkey : decodePatchFields (formPatchSeq setlistNumber patchNum letterVal)
      = ⟨setlistNumber + 1,
         ((if (patchNum - 1) * 8 + letterVal > 127 then (1 : Int) else 0) * 128
            + ((patchNum - 1) * 8 + letterVal).tmod 128).fdiv 8 + 1,
         ((if (patchNum - 1) * 8 + letterVal > 127 then (1 : Int) else 0) * 128
            + ((patchNum - 1) * 8 + letterVal).tmod 128).tmod 8⟩ := rfl
  rw [hkey]
  have hpre : 0 ≤ (patchNum - 1) * 8 + letterVal := by omega
  have hmod : ((patchNum - 1) * 8 + letterVal).tmod 128
      = ((patchNum - 1) * 8 + letterVal) % 128 := Int.tmod_eq_emod hpre (by norm_num)
  have hB : (if (patchNum - 1) * 8 + letterVal > 127 then (1 : Int) else 0) * 128
      + ((patchNum - 1) * 8 + letterVal).tmod 128 = (patchNum - 1) * 8 + letterVal := by
    rw [hmod]; split <;> omega
  rw [hB]
  have hdiv : ((patchNum - 1) * 8 + letterVal).fdiv 8 = ((patchNum - 1) * 8 + letterVal) / 8 :=
    Int.fdiv_eq_ediv _ (by norm_num)
  have hmod8 : ((patchNum - 1) * 8 + letterVal).tmod 8
      = ((patchNum - 1) * 8 + letterVal) % 8 := Int.tmod_eq_emod hpre (by norm_num)
  simp only [PatchFormFields.mk.injEq, hdiv, hmod8]
  refine ⟨trivial, by omega, by omega⟩

/-- Witness for C2 at setlist number 4, patch 32H (presetIndex 255). -/
theorem patch_encode_decode_roundtrip_w :
    decodePatchFields (formPatchSeq 4 32 7) = ⟨5, 32, 7⟩
    ∧ classifyMidi (formPatchSeq 4 32 7) = "patch" :=
  patch_encode_decode_roundtrip 4 32 7 (by norm_num) (by norm_num) (by norm_num) (by norm_num)

/-- C3: when the configured column name is not among the trimmed header
cells of the document's first line, ingestion fails with the error message
that names the column and enumerates the available headers, and no mapping
list is returned. -/
theorem missing_column_aborts_document
    (csvString songTitle : String) (setlistNumber : Int)
    (settings : ParserSettings) (freshId : Nat → String)
    (h : settings.column_name ∉
        ((jsSplit ((jsSplit (jsTrim csvString) '\n').headD "") ',').map jsTrim)) :
    parseSongCsvJs csvString songTitle setlistNumber settings freshId
      = .error ("Column '" ++ settings.column_name ++ "' not found in CSV for '"
          ++ songTitle ++ "'. Available columns: "
          ++ String.intercalate ", "
              ((jsSplit ((jsSplit (jsTrim csvString) '\n').headD "") ',').map jsTrim)) := by
  simp only [parseSongCsvJs, listIdxOf_eq_none _ _ h]

/-- Witness for C3: header row `Time,Notes` with configured column
`Song Part`. -/
theorem missing_column_aborts_document_w :
    parseSongCsvJs "Time,Notes\n1A" "T" 0 ⟨"Song Part", "FS", "SC", "/song"⟩ (fun _ => "i")
      = .error "Column 'Song Part' not found in CSV for 'T'. Available columns: Time, Notes" :=
  missing_column_aborts_document "Time,Notes\n1A" "T" 0 ⟨"Song Part", "FS", "SC", "/song"⟩
    (fun _ => "i") (by decide)

/-- C9: the generator/app copy of the mode/view and looper tables
(controls 47/45/46 and 53,54,56,51,55,50,48) disagrees with the
templates/client copy (controls 71/68/72 and 61–67) on every listed
action, so the two encode functions are not equal. -/
theorem mode_view_looper_tables_disagree :
    appModeViewSeq "mode_preset" = some [MidiEvent.control_change 1 47 0]
    ∧ (generateModeViewSequence "mode_preset" 1).map TempMapping.midi_sequence
        = some [MidiEvent.control_change 1 71 0]
    ∧ appModeViewSeq "tuner_on" = some [MidiEvent.control_change 1 45 127]
    ∧ (generateModeViewSequence "tuner_on" 1).map TempMapping.midi_sequence
        = some [MidiEvent.control_change 1 68 127]
    ∧ appModeViewSeq "gig_view_on" = some [MidiEvent.control_change 1 46 127]
    ∧ (generateModeViewSequence "gig_view_on" 1).map TempMapping.midi_sequence
        = some [MidiEvent.control_change 1 72 127]
    ∧ appLooperSeq "rec_stop" = some [MidiEvent.control_change 1 53 127]
    ∧ (generateLooperSequence "rec_stop" 1).map TempMapping.midi_sequence
        = some [MidiEvent.control_change 1 61 127]
    ∧ appModeViewSeq ≠ (fun a => (generateModeViewSequence a 1).map TempMapping.midi_sequence)
    ∧ appLooperSeq ≠ (fun a => (generateLooperSequence a 1).map TempMapping.midi_sequence) := by
  refine ⟨rfl, rfl, rfl, rfl, rfl, rfl, rfl, rfl, ?_, ?_⟩
  · intro h
    exact absurd (congrFun h "mode_preset") (by decide)
  · intro h
    exact absurd (congrFun h "rec_stop") (by decide)

/-- C10: the CSV classifier checks only `patchNum >= 1`, so the distinct
cell values `33A` (presetIndex 256) and `17A` (presetIndex 128) encode to
the identical sequence CC#0=1, CC#32=setlist, ProgramChange=0. -/
theorem patch_number_unbounded_aliasing :
    (parseSongCsvJs "Part\n33A" "s" 5 stdSettings (fun _ => "i")).map
        (fun p => p.1.map Mapping.midi_sequence)
      = .ok [[MidiEvent.control_change 1 0 1, MidiEvent.control_change 1 32 5,
          MidiEvent.program_change 1 0]]
    ∧ (parseSongCsvJs "Part\n17A" "s" 5 stdSettings (fun _ => "i")).map
        (fun p => p.1.map Mapping.midi_sequence)
      = .ok [[MidiEvent.control_change 1 0 1, MidiEvent.control_change 1 32 5,
          MidiEvent.program_change 1 0]] := ⟨rfl, rfl⟩

/-- Counterexample to C4 as stated: the value `Intro` has no digit run and
no footswitch/scene structure, so a run of five consecutive `Intro` cells
yields zero mappings, not exactly one. -/
theorem intro_run_yields_no_mapping :
    parseSongCsvJs "Part\nIntro\nIntro\nIntro\nIntro\nIntro" "My Song" 0 stdSettings
      (fun _ => "id") = .ok ([], []) := rfl

/-- Counterexample to C6 as stated: the row `0A` carries patchNumber 0,
outside 1..32; the run produces no mapping for it and continues with the
next row, but the warning list stays empty — the warning callback is never
invoked for a domain violation. -/
theorem invalid_patch_row_warns_nothing :
    parseSongCsvJs "Part\n0A\n1A" "My Song" 0 stdSettings (fun _ => "id")
      = .ok ([⟨"id", "/song/my_song/1", "QC: Setlist 1, Patch 1A",
          [MidiEvent.control_change 1 0 0, MidiEvent.control_change 1 32 0,
           MidiEvent.program_change 1 0]⟩], []) := rfl

/-- Counterexample to C7 as stated: a batch of two files whose first lacks
the target column produces no mappings at all — the sibling `good`
document, which on its own would produce one mapping (second conjunct), is
not represented in the batch result. -/
theorem missing_column_aborts_whole_batch :
    processCsvBatch stdSettings (fun _ _ => "id") 1 [("bad", "Time,Notes\n1A"), ("good", "Part\n1A")]
      = .error "Column 'Part' not found in CSV for 'bad'. Available columns: Time, Notes"
    ∧ parseSongCsvJs "Part\n1A" "good" 1 stdSettings (fun _ => "id")
      = .ok ([⟨"id", "/song/good/1", "QC: Setlist 2, Patch 1A",
          [MidiEvent.control_change 1 0 0, MidiEvent.control_change 1 32 1,
           MidiEvent.program_change 1 0]⟩], []) := ⟨rfl, rfl⟩

/-- Counterexample to C8 as stated: with every other input fixed, two
invocations drawing different ids from `crypto.randomUUID()` return
different mapping lists. -/
theorem fresh_ids_differ_across_invocations :
    parseSongCsvJs "Part\n1A" "My Song" 0 stdSettings (fun _ => "id-a")
      = .ok ([⟨"id-a", "/song/my_song/1", "QC: Setlist 1, Patch 1A",
          [MidiEvent.control_change 1 0 0, MidiEvent.control_change 1 32 0,
           MidiEvent.program_change 1 0]⟩], [])
    ∧ parseSongCsvJs "Part\n1A" "My Song" 0 stdSettings (fun _ => "id-b")
      = .ok ([⟨"id-b", "/song/my_song/1", "QC: Setlist 1, Patch 1A",
          [MidiEvent.control_change 1 0 0, MidiEvent.control_change 1 32 0,
           MidiEvent.program_change 1 0]⟩], [])
    ∧ (⟨"id-a", "/song/my_song/1", "QC: Setlist 1, Patch 1A",
          [MidiEvent.control_change 1 0 0, MidiEvent.control_change 1 32 0,
           MidiEvent.program_change 1 0]⟩ : Mapping)
      ≠ ⟨"id-b", "/song/my_song/1", "QC: Setlist 1, Patch 1A",
          [MidiEvent.control_change 1 0 0, MidiEvent.control_change 1 32 0,
           MidiEvent.program_change 1 0]⟩ := ⟨rfl, rfl, by decide⟩

/-- Row-loop step: a blank or too-short line is skipped. -/
theorem processLines_cons_none {cidx : Nat} {l : String}
    (settings : ParserSettings) (sl : Int) (last : Option String) (ls : List String)
    (h : rowValue cidx l = none) :
    processLines settings sl cidx last (l :: ls) = processLines settings sl cidx last ls := by
  simp only [processLines, h]

/-- Row-loop step: a blank value, or a value equal to the previous
non-skipped one, is skipped with `lastValue` unchanged. -/
theorem processLines_cons_skip {cidx : Nat} {l v : String}
    (settings : ParserSettings) (sl : Int) (last : Option String) (ls : List String)
    (h : rowValue cidx l = some v) (hc : v = "" ∨ last = some v) :
    processLines settings sl cidx last (l :: ls) = processLines settings sl cidx last ls := by
  simp only [processLines, h, if_pos hc]

/-- Row-loop step: a fresh value updates `lastValue` and is classified. -/
theorem processLines_cons_new {cidx : Nat} {l v : String}
    (settings : ParserSettings) (sl : Int) (last : Option String) (ls : List String)
    (h : rowValue cidx l = some v) (hc : ¬(v = "" ∨ last = some v)) :
    processLines settings sl cidx last (l :: ls)
      = match classifyValue settings sl v with
        | some tm => tm :: processLines settings sl cidx (some v) ls
        | none => processLines settings sl cidx (some v) ls := by
  simp only [processLines, h, if_neg hc]

/-- A block of rows whose extracted values all equal `v` — the rows are
free to differ in every other column — is skipped wholesale when `v` is
blank or equal to the current `lastValue`. -/
theorem processLines_run_skip {cidx : Nat} {v : String}
    (settings : ParserSettings) (sl : Int) (last : Option String) (rest : List String)
    (hc : v = "" ∨ last = some v) :
    ∀ run : List String, (∀ l ∈ run, rowValue cidx l = some v) →
      processLines settings sl cidx last (run ++ rest)
        = processLines settings sl cidx last rest := by
  intro run
  induction run with
  | nil => intro _; rfl
  | cons a as ih =>
    intro hrun
    rw [List.cons_append,
        processLines_cons_skip settings sl last _ (hrun a (List.mem_cons_self a as)) hc,
        ih (fun l hl => hrun l (List.mem_cons_of_mem a hl))]

/-- C4 (amended): a maximal run of consecutive rows whose extracted
target-column values are all equal — the rows may differ in every other
column, as when a song part persists over changing time cells — produces
exactly what its first row produces: at most one mapping, one exactly when
the value is classifiable. Non-adjacent repeats are not merged: the
concrete documents show `1A` five times yielding exactly one mapping, a
`Time,Part` document with three time rows sharing part `1A` yielding
exactly one mapping, and `1A`, `FS A`, `1A` yielding three mappings with
the first and third identical. -/
theorem run_dedup_collapses_consecutive :
    (∀ (settings : ParserSettings) (sl : Int) (cidx : Nat) (l : String) (v : String)
        (run : List String) (rest : List String) (last : Option String),
      rowValue cidx l = some v →
      (∀ l' ∈ run, rowValue cidx l' = some v) →
      processLines settings sl cidx last (l :: (run ++ rest))
        = processLines settings sl cidx last (l :: rest))
    ∧ parseSongCsvJs "Part\n1A\n1A\n1A\n1A\n1A" "My Song" 0 stdSettings (fun _ => "id")
      = .ok ([⟨"id", "/song/my_song/1", "QC: Setlist 1, Patch 1A",
          [MidiEvent.control_change 1 0 0, MidiEvent.control_change 1 32 0,
           MidiEvent.program_change 1 0]⟩], [])
    ∧ parseSongCsvJs "Time,Part\n0:00,1A\n0:15,1A\n0:30,1A" "My Song" 0 stdSettings
        (fun _ => "id")
      = .ok ([⟨"id", "/song/my_song/1", "QC: Setlist 1, Patch 1A",
          [MidiEvent.control_change 1 0 0, MidiEvent.control_change 1 32 0,
           MidiEvent.program_change 1 0]⟩], [])
    ∧ (parseSongCsvJs "Part\n1A\nFS A\n1A" "My Song" 0 stdSettings (fun _ => "id")).map
        (fun p => p.1.map (fun m => (m.osc_address, m.midi_sequence)))
      = .ok [("/song/my_song/1",
              [MidiEvent.control_change 1 0 0, MidiEvent.control_change 1 32 0,
               MidiEvent.program_change 1 0]),
             ("/song/my_song/2", [MidiEvent.control_change 1 35 127]),
             ("/song/my_song/3",
              [MidiEvent.control_change 1 0 0, MidiEvent.control_change 1 32 0,
               MidiEvent.program_change 1 0])] := by
  refine ⟨?_, rfl, rfl, rfl⟩
  intro settings sl cidx l v run rest last h hrun
  by_cases hc : v = "" ∨ last = some v
  · rw [processLines_cons_skip settings sl last _ h hc,
        processLines_cons_skip settings sl last _ h hc,
        processLines_run_skip settings sl last rest hc run hrun]
  · rw [processLines_cons_new settings sl last _ h hc,
        processLines_cons_new settings sl last _ h hc]
    simp only [processLines_run_skip settings sl (some v) rest (Or.inr rfl) run hrun]

/-- Witness for C4: a run of two further time rows repeating part `1A`
behind the row `0:00,1A` (target column index 1) collapses to the first
row alone. -/
theorem run_dedup_collapses_consecutive_w :
    processLines stdSettings 0 1 none ["0:00,1A", "0:15,1A", "0:30,1A"]
      = processLines stdSettings 0 1 none ["0:00,1A"] :=
  run_dedup_collapses_consecutive.1 stdSettings 0 1 "0:00,1A" "1A"
    ["0:15,1A", "0:30,1A"] [] none rfl (by decide)

/-- Attaching ids and addresses preserves the list length. -/
theorem assignAddresses_length (pre st : String) (f : Nat → String) (temp : List TempMapping) :
    ∀ k, (assignAddresses pre st f k temp).length = temp.length := by
  induction temp with
  | nil => intro k; rfl
  | cons t ts ih => intro k; simp [assignAddresses, ih (k + 1)]

/-- The i-th assigned mapping (0-based, starting the counter at `k`) gets
the address `pre/st/(k+i+1)`. -/
theorem assignAddresses_getD (pre st : String) (f : Nat → String) (temp : List TempMapping) :
    ∀ (k i : Nat), i < temp.length →
      ((assignAddresses pre st f k temp).getD i ⟨"", "", "", []⟩).osc_address
        = pre ++ "/" ++ st ++ "/" ++ toString (k + i + 1) := by
  induction temp with
  | nil => intro k i h; simp at h
  | cons t ts ih =>
    intro k i h
    cases i with
    | zero => simp [assignAddresses]
    | succ j =>
      have hj : j < ts.length := by simpa using h
      simp only [assignAddresses, List.getD_cons_succ]
      rw [ih (k + 1) j hj]
      have hkj : k + 1 + j + 1 = k + (j + 1) + 1 := by omega
      rw [hkj]

/-- C5: the i-th produced mapping (1-based over produced mappings) gets
`osc_address = osc_prefix/sanitizedTitle/i`, where the title is
lowercased, every character outside `[a-z0-9_]` becomes `_` and runs of
underscores collapse; `My Song! #1` sanitizes to `my_song_1` and its first
address under `/song` is `/song/my_song_1/1`. -/
theorem osc_address_synthesis
    (csvString songTitle : String) (setlistNumber : Int) (settings : ParserSettings)
    (freshId : Nat → String) (ms : List Mapping) (ws : List String) (i : Nat)
    (hok : parseSongCsvJs csvString songTitle setlistNumber settings freshId = .ok (ms, ws))
    (hi : i < ms.length) :
    (ms.getD i ⟨"", "", "", []⟩).osc_address
      = settings.osc_pre ++ "/" ++ sanitizeTitle songTitle ++ "/" ++ toString (i + 1)
    ∧ sanitizeTitle "My Song! #1" = "my_song_1"
    ∧ (parseSongCsvJs "Part\n1A" "My Song! #1" 0 stdSettings (fun _ => "i")).map
        (fun p => p.1.map Mapping.osc_address) = .ok ["/song/my_song_1/1"] := by
  refine ⟨?_, rfl, rfl⟩
  simp only [parseSongCsvJs] at hok
  split at hok
  · exact absurd hok (by simp)
  · simp only [Except.ok.injEq, Prod.mk.injEq] at hok
    obtain ⟨h1, h2⟩ := hok
    subst h1
    rw [assignAddresses_length] at hi
    have := assignAddresses_getD settings.osc_pre (sanitizeTitle songTitle) freshId _ 0 i hi
    simpa using this

/-- Witness for C5 on the one-mapping document `Part` / `1A`. -/
theorem osc_address_synthesis_w :
    (([⟨"i", "/song/my_song_1/1", "QC: Setlist 1, Patch 1A",
        [MidiEvent.control_change 1 0 0, MidiEvent.control_change 1 32 0,
         MidiEvent.program_change 1 0]⟩] : List Mapping).getD 0 ⟨"", "", "", []⟩).osc_address
      = stdSettings.osc_pre ++ "/" ++ sanitizeTitle "My Song! #1" ++ "/" ++ toString (0 + 1)
    ∧ sanitizeTitle "My Song! #1" = "my_song_1"
    ∧ (parseSongCsvJs "Part\n1A" "My Song! #1" 0 stdSettings (fun _ => "i")).map
        (fun p => p.1.map Mapping.osc_address) = .ok ["/song/my_song_1/1"] :=
  osc_address_synthesis "Part\n1A" "My Song! #1" 0 stdSettings (fun _ => "i")
    [⟨"i", "/song/my_song_1/1", "QC: Setlist 1, Patch 1A",
      [MidiEvent.control_change 1 0 0, MidiEvent.control_change 1 32 0,
       MidiEvent.program_change 1 0]⟩] [] 0 rfl (by norm_num)

/-- C6 (amended): a row whose numeric parameter is out of domain (for
example patchNumber 0) produces no mapping and ingestion continues with
the next row, but silently: the warning callback fires only from the
`catch`, which the throw-free encode paths never reach, so every
successful ingestion returns an empty warning list. -/
theorem invalid_rows_skipped_silently :
    (∀ (csvString songTitle : String) (setlistNumber : Int) (settings : ParserSettings)
        (freshId : Nat → String) (ms : List Mapping) (ws : List String),
      parseSongCsvJs csvString songTitle setlistNumber settings freshId = .ok (ms, ws) →
      ws = [])
    ∧ parseSongCsvJs "Part\n0A\n1A" "My Song" 0 stdSettings (fun _ => "id")
      = .ok ([⟨"id", "/song/my_song/1", "QC: Setlist 1, Patch 1A",
          [MidiEvent.control_change 1 0 0, MidiEvent.control_change 1 32 0,
           MidiEvent.program_change 1 0]⟩], []) := by
  refine ⟨?_, rfl⟩
  intro csvString songTitle setlistNumber settings freshId ms ws hok
  simp only [parseSongCsvJs] at hok
  split at hok
  · exact absurd hok (by simp)
  · simp only [Except.ok.injEq, Prod.mk.injEq] at hok
    exact hok.2.symm

/-- Witness for C6 on the `0A` document. -/
theorem invalid_rows_skipped_silently_w : ([] : List String) = [] :=
  invalid_rows_skipped_silently.1 "Part\n0A\n1A" "My Song" 0 stdSettings (fun _ => "id")
    [⟨"id", "/song/my_song/1", "QC: Setlist 1, Patch 1A",
      [MidiEvent.control_change 1 0 0, MidiEvent.control_change 1 32 0,
       MidiEvent.program_change 1 0]⟩] [] rfl

/-- C7 (amended): a document-level failure aborts the whole batch — the
handler displays the error and returns before applying anything, so no
sibling's mappings survive; when a file succeeds, its mappings are
concatenated in front of the rest of the batch, whose setlist number is
one higher. The concrete batch shows two successful files concatenated in
file order with CC#32 values 0 and 1. -/
theorem batch_error_policy :
    (∀ (settings : ParserSettings) (freshId : Nat → Nat → String) (k : Nat) (sl : Int)
        (songTitle csvString : String) (rest : List (String × String)) (e : String),
      parseSongCsvJs csvString songTitle sl settings (freshId k) = .error e →
      processCsvBatchAux settings freshId k sl ((songTitle, csvString) :: rest) = .error e)
    ∧ (∀ (settings : ParserSettings) (freshId : Nat → Nat → String) (k : Nat) (sl : Int)
        (songTitle csvString : String) (rest : List (String × String))
        (ms : List Mapping) (ws : List String),
      parseSongCsvJs csvString songTitle sl settings (freshId k) = .ok (ms, ws) →
      processCsvBatchAux settings freshId k sl ((songTitle, csvString) :: rest)
        = (processCsvBatchAux settings freshId (k + 1) (sl + 1) rest).map
            (fun more => ms ++ more))
    ∧ processCsvBatch stdSettings (fun _ _ => "id") 1 [("a", "Part\n1A"), ("b", "Part\n1A")]
      = .ok [⟨"id", "/song/a/1", "QC: Setlist 1, Patch 1A",
              [MidiEvent.control_change 1 0 0, MidiEvent.control_change 1 32 0,
               MidiEvent.program_change 1 0]⟩,
             ⟨"id", "/song/b/1", "QC: Setlist 2, Patch 1A",
              [MidiEvent.control_change 1 0 0, MidiEvent.control_change 1 32 1,
               MidiEvent.program_change 1 0]⟩] := by
  refine ⟨?_, ?_, rfl⟩
  · intro settings freshId k sl songTitle csvString rest e h
    simp only [processCsvBatchAux, h]
  · intro settings freshId k sl songTitle csvString rest ms ws h
    simp only [processCsvBatchAux, h]
    cases hr : processCsvBatchAux settings freshId (k + 1) (sl + 1) rest <;>
      simp [Except.map]

/-- Witness for C7: the failing head file aborts the two-file batch. -/
theorem batch_error_policy_w :
    processCsvBatchAux stdSettings (fun _ _ => "id") 0 0
        [("bad", "Time,Notes\n1A"), ("good", "Part\n1A")]
      = .error "Column 'Part' not found in CSV for 'bad'. Available columns: Time, Notes" :=
  batch_error_policy.1 stdSettings (fun _ _ => "id") 0 0 "bad" "Time,Notes\n1A"
    [("good", "Part\n1A")] _ rfl

/-- The assigned records differ only in the id field, so erasing ids makes
the id stream irrelevant. -/
theorem assignAddresses_map_stripId (pre st : String) (f g : Nat → String)
    (temp : List TempMapping) :
    ∀ k, (assignAddresses pre st f k temp).map stripId
        = (assignAddresses pre st g k temp).map stripId := by
  induction temp with
  | nil => intro k; rfl
  | cons t ts ih =>
    intro k
    simp only [assignAddresses, List.map_cons, stripId]
    rw [ih (k + 1)]

/-- C8 (amended): ingestion is pure given its inputs and the id stream:
with document, title, setlist number and settings fixed, two invocations
agree on everything except the freshly drawn ids — the results with ids
erased are identical whatever ids each invocation draws. -/
theorem parse_pure_up_to_ids (csvString songTitle : String) (setlistNumber : Int)
    (settings : ParserSettings) (f g : Nat → String) :
    stripIds (parseSongCsvJs csvString songTitle setlistNumber settings f)
      = stripIds (parseSongCsvJs csvString songTitle setlistNumber settings g) := by
  simp only [parseSongCsvJs, stripIds]
  cases hidx : listIdxOf settings.column_name
      ((jsSplit ((jsSplit (jsTrim csvString) '\n').headD "") ',').map jsTrim) with
  | none => rfl
  | some ci =>
    simp only [Except.map, Except.ok.injEq, Prod.mk.injEq]
    exact ⟨assignAddresses_map_stripId _ _ f g _ 0, trivial⟩
